import Mathlib

/-!
Verification of the data-to-prompt serialization and session-loop logic of
`agent.py`, shallowly embedded in Lean 4.

A spreadsheet `DataFrame` is modelled as a column-name list plus a list of
rows, each row a list of already-rendered scalar cell values.  The pandas
and csv behaviour the script relies on (`DataFrame.head`, `to_csv` with
`index=False` and minimal quoting) is embedded faithfully, including the
negative-argument semantics of `head`.
-/

namespace Agent

/-- One sheet of the loaded workbook: column names in order plus data rows,
each row a list of cell values rendered as text. -/
structure DataFrame where
  columns : List String
  rows : List (List String)
deriving DecidableEq, Repr

/-- Pandas `DataFrame.head(n)` is `df.iloc[:n]`: for `n ≥ 0` the first `n`
rows, for `n < 0` all rows except the last `|n|` (Python slice semantics). -/
def DataFrame.head (df : DataFrame) (n : Int) : DataFrame :=
  { columns := df.columns
    rows :=
      if 0 ≤ n then df.rows.take n.toNat
      else df.rows.take (df.rows.length - (-n).toNat) }

/-- csv QUOTE_MINIMAL: a field is quoted iff it contains the delimiter,
the quote character, or a line-break character; quotes are doubled. -/
def csvField (s : String) : String :=
  if s.data.any (fun c => c = ',' ∨ c = '\x22' ∨ c = '\n' ∨ c = '\r') then
    "\x22" ++ s.replace "\x22" "\x22\x22" ++ "\x22"
  else s

/-- One csv line: comma-joined quoted fields plus a newline. -/
def csvLine (cells : List String) : String :=
  String.intercalate "," (cells.map csvField) ++ "\n"

/-- Embedding of `df.to_csv(index=False)`: the column-header line followed
by one csv line per data row. -/
def DataFrame.to_csv (df : DataFrame) : String :=
  csvLine df.columns ++ String.join (df.rows.map csvLine)

/-- The per-sheet header line emitted by `sheets_to_csv_text`
(f-string on line 48 of `agent.py`). -/
def sheetHeaderLine (sheet_name : String) (max_rows_per_sheet : Int) : String :=
  "\n--- SHEET: " ++ sheet_name ++ " (first " ++ toString max_rows_per_sheet
    ++ " rows) ---\n"

/-- The text contributed by one sheet: its header line followed by the csv
text of its first `max_rows_per_sheet` rows. -/
def sheetSection (max_rows_per_sheet : Int) (sheet_name : String)
    (df : DataFrame) : String :=
  sheetHeaderLine sheet_name max_rows_per_sheet
    ++ (df.head max_rows_per_sheet).to_csv

/-- Embedding of `sheets_to_csv_text(sheets, max_rows_per_sheet)` from
`agent.py` lines 44-50: fold over the sheets in order, appending each
section to the accumulated text (which starts empty). -/
def sheets_to_csv_text (sheets : List (String × DataFrame))
    (max_rows_per_sheet : Int := 300) : String :=
  sheets.foldl
    (fun data p => data ++ sheetSection max_rows_per_sheet p.1 p.2) ""

/-- Number of data rows serialized into the section of one sheet: the rows
surviving `df.head(max_rows_per_sheet)`. -/
def dataRowCount (max_rows_per_sheet : Int) (df : DataFrame) : Nat :=
  (df.head max_rows_per_sheet).rows.length

/-- The prompt sent to the model (`input=` argument on lines 188-193 of
`agent.py`): fixed preamble, serialized data, fixed separator, the verbatim
question, trailing newline. -/
def buildPrompt (data_text user_prompt : String) : String :=
  "You are given this CSV data:\n\n" ++ data_text ++ "\n\n"
    ++ "Answer the following question clearly and directly:\n\n"
    ++ user_prompt ++ "\n"

/-- One transcript entry (`st.session_state.messages` element). -/
structure Message where
  role : String
  content : String
deriving DecidableEq, Repr

/-- Outcome of the single `client.responses.create` call of one turn:
either the call returned (with an `output_text` attribute that may be
absent, modelled as `none`, or present as `some s`), or it raised an
exception whose message is `e`. -/
inductive CompletionResult where
  | success (output_text : Option String)
  | failure (e : String)
deriving DecidableEq, Repr

/-- The marker recorded when the call succeeded but `output_text` was
absent or empty (line 195 of `agent.py`). -/
def emptyResponseMarker : String := "No output_text returned."

/-- The text recorded when the call raised the exception message `e`
(line 197 of `agent.py`). -/
def requestFailedText (e : String) : String := "Request failed:\n\n" ++ e

/-- The answer text of one call: `output_text = getattr(response,
"output_text", None) or "No output_text returned."` inside `try`, with the
`except` branch substituting the failure text.  Python `or` yields the
right operand when the left is `None` or the empty string. -/
def answerOf : CompletionResult → String
  | .success none => emptyResponseMarker
  | .success (some t) => if t = "" then emptyResponseMarker else t
  | .failure e => requestFailedText e

/-- Python truthiness of `st.chat_input`'s return value: `None` (no
submission) and the empty string are falsy; any other string is truthy. -/
def isTruthyInput : Option String → Bool
  | none => false
  | some s => !s.isEmpty

/-- What one pass over lines 174-201 of `agent.py` produced: the updated
transcript and the list of prompts sent to the completion client during
that pass. -/
structure TurnResult where
  messages : List Message
  requests : List String
deriving DecidableEq, Repr

/-- One pass of the session loop (lines 174-201 of `agent.py`): if the
chat-input value is truthy, append the user message, send exactly one
request built from the data text and the question, compute the answer text
from the call's outcome, and append the assistant message; otherwise leave
the transcript untouched and send nothing. -/
def processTurn (data_text : String) (messages : List Message)
    (input : Option String) (outcome : CompletionResult) : TurnResult :=
  match input with
  | none => { messages := messages, requests := [] }
  | some user_prompt =>
    if user_prompt.isEmpty then
      { messages := messages, requests := [] }
    else
      { messages :=
          (messages ++ [{ role := "user", content := user_prompt }])
            ++ [{ role := "assistant", content := answerOf outcome }]
        requests := [buildPrompt data_text user_prompt] }

/-- Result of handling one line of console input in the CLI entry point. -/
inductive CliStepResult where
  | exited (status : Nat) (requests : Nat)
  | continued (requests : Nat)
deriving DecidableEq, Repr

/-- Python `str.lower()` on the characters of a string (used to compare
console input against the quit sentinel case-insensitively). -/
def pyLower (s : String) : String := ⟨s.data.map Char.toLower⟩

/-- Modelled from the spec: the CLI entry point (the console
question/answer loop over standard input/output) is not among the source
files; only the Streamlit entry point `agent.py` is.  Per the spec, the
sentinel input `quit` (case-insensitive) exits with status 0 without
invoking the Completion Client; an empty or whitespace-only line
re-prompts without a request; any other line triggers exactly one
completion request and the loop continues. -/
def cliStep (input : String) : CliStepResult :=
  if pyLower input = "quit" then .exited 0 0
  else if input.trim = "" then .continued 0
  else .continued 1

/-- Concatenation of the strings produced from each list element; used to
describe `sheets_to_csv_text` as a concatenation of per-sheet sections. -/
def concatMap {α : Type _} (f : α → String) : List α → String
  | [] => ""
  | a :: l => f a ++ concatMap f l

/-- A two-row single-column sheet used as concrete test data. -/
def dfTwo : DataFrame := { columns := ["a"], rows := [["1"], ["2"]] }

/-- A concrete one-sheet workbook built from `dfTwo`. -/
def sheetsTwo : List (String × DataFrame) := [("S", dfTwo)]

theorem foldl_append_concatMap {α : Type _} (f : α → String) :
    ∀ (l : List α) (s : String),
      l.foldl (fun d p => d ++ f p) s = s ++ concatMap f l := by
  intro l
  induction l with
  | nil => intro s; simp [concatMap]
  | cons a t ih =>
      intro s
      simp only [List.foldl_cons, concatMap]
      rw [ih, String.append_assoc]

theorem sheets_to_csv_text_eq_concat (sheets : List (String × DataFrame))
    (N : Int) :
    sheets_to_csv_text sheets N
      = concatMap (fun p => sheetSection N p.1 p.2) sheets := by
  unfold sheets_to_csv_text
  rw [foldl_append_concatMap]
  simp

theorem marker_ne_requestFailedText (e : String) :
    emptyResponseMarker ≠ requestFailedText e := by
  intro h
  have h2 := congrArg String.data h
  rw [requestFailedText, String.data_append] at h2
  simp [emptyResponseMarker] at h2

/-- C1: for every ordered workbook and every cap N ≥ 0, the serialized
output is the concatenation of per-sheet sections, and each section
serializes at most N data rows, whatever the sheet's true row count. -/
theorem C1_row_cap_enforced (sheets : List (String × DataFrame)) (N : Int)
    (hN : 0 ≤ N) :
    sheets_to_csv_text sheets N
        = concatMap (fun p => sheetSection N p.1 p.2) sheets
      ∧ ∀ p ∈ sheets, (dataRowCount N p.2 : Int) ≤ N := by
  refine ⟨sheets_to_csv_text_eq_concat sheets N, ?_⟩
  intro p _
  have hlen : dataRowCount N p.2 ≤ N.toNat := by
    unfold dataRowCount DataFrame.head
    simp [hN, List.length_take]
  calc (dataRowCount N p.2 : Int) ≤ (N.toNat : Int) := by exact_mod_cast hlen
    _ = N := Int.toNat_of_nonneg hN

/-- Witness for C1 at a concrete workbook and cap 2. -/
theorem C1_row_cap_enforced_witness :
    (0 : Int) ≤ 2 ∧ (dataRowCount 2 dfTwo : Int) ≤ 2 :=
  ⟨by decide,
    (C1_row_cap_enforced sheetsTwo 2 (by decide)).2 ("S", dfTwo)
      (by simp [sheetsTwo])⟩

/-- C2: the prompt built by the session loop contains the serialized data
and the question each as one contiguous unmodified substring. -/
theorem C2_prompt_contains_verbatim (S Q : String) :
    (∃ a b, buildPrompt S Q = a ++ S ++ b)
      ∧ (∃ c d, buildPrompt S Q = c ++ Q ++ d) := by
  constructor
  · exact ⟨"You are given this CSV data:\n\n",
      "\n\n" ++ "Answer the following question clearly and directly:\n\n"
        ++ Q ++ "\n",
      by simp [buildPrompt, String.append_assoc]⟩
  · exact ⟨"You are given this CSV data:\n\n" ++ S ++ "\n\n"
        ++ "Answer the following question clearly and directly:\n\n",
      "\n", by simp [buildPrompt, String.append_assoc]⟩

/-- C3: the serializer is a deterministic pure function of the table list
and the cap; two invocations on the same arguments yield identical
output. -/
theorem C3_serializer_deterministic (sheets : List (String × DataFrame))
    (N : Int) :
    sheets_to_csv_text sheets N = sheets_to_csv_text sheets N := rfl

/-- C4 as stated is false: with cap -1 and a two-row sheet, pandas
`head(-1)` keeps all rows but the last one, so the section contains one
data row, not zero. -/
theorem C4_counterexample :
    ((-1 : Int) ≤ 0)
      ∧ dataRowCount (-1) dfTwo ≠ 0
      ∧ sheets_to_csv_text sheetsTwo (-1)
          = "\n--- SHEET: S (first -1 rows) ---\na\n1\n" :=
  ⟨by decide, by decide, by rfl⟩

/-- C4 (amended): with cap 0 the serializer emits for every sheet only the
header line and the column-header row, with zero data rows, and is total
(no error). -/
theorem C4_zero_cap_header_only (sheets : List (String × DataFrame)) :
    sheets_to_csv_text sheets 0
        = concatMap
            (fun p => sheetHeaderLine p.1 0 ++ csvLine p.2.columns) sheets
      ∧ ∀ p ∈ sheets, dataRowCount 0 p.2 = 0 := by
  constructor
  · rw [sheets_to_csv_text_eq_concat]
    congr 1
    funext p
    simp [sheetSection, DataFrame.to_csv, DataFrame.head, String.join,
      String.append_assoc]
  · intro p _
    simp [dataRowCount, DataFrame.head]

/-- Witness for the amended C4 at a concrete workbook. -/
theorem C4_zero_cap_header_only_witness : dataRowCount 0 dfTwo = 0 :=
  (C4_zero_cap_header_only sheetsTwo).2 ("S", dfTwo) (by simp [sheetsTwo])

/-- C5: when the remote call raises, the turn appends the user question
and an assistant entry carrying the failure text, sends exactly one
request (no retry), and a subsequent non-empty question is still
processed normally. -/
theorem C5_request_error_recovered (data_text : String)
    (messages : List Message) (q e : String) (hq : ¬ q.isEmpty) :
    (processTurn data_text messages (some q) (.failure e)).messages
        = messages ++ [⟨"user", q⟩, ⟨"assistant", requestFailedText e⟩]
      ∧ (processTurn data_text messages (some q) (.failure e)).requests
          = [buildPrompt data_text q]
      ∧ ∀ (q2 : String) (outcome2 : CompletionResult), ¬ q2.isEmpty →
          (processTurn data_text
              (processTurn data_text messages (some q) (.failure e)).messages
              (some q2) outcome2).messages
            = (processTurn data_text messages (some q) (.failure e)).messages
                ++ [⟨"user", q2⟩, ⟨"assistant", answerOf outcome2⟩] := by
  refine ⟨by simp [processTurn, hq, answerOf], by simp [processTurn, hq], ?_⟩
  intro q2 outcome2 h2
  simp [processTurn, hq, h2]

/-- Witness for C5 at a concrete failing turn. -/
theorem C5_request_error_recovered_witness :
    (processTurn "D" [] (some "Hi") (.failure "boom")).messages
      = [⟨"user", "Hi"⟩, ⟨"assistant", requestFailedText "boom"⟩] := by
  have h := (C5_request_error_recovered "D" [] "Hi" "boom" (by decide)).1
  simpa using h

/-- C6: a successful call with absent or blank output text records the
empty-response marker as the assistant answer, and that marker differs
from the text recorded for every failed request. -/
theorem C6_empty_response_distinct (data_text : String)
    (messages : List Message) (q : String) (hq : ¬ q.isEmpty) :
    (processTurn data_text messages (some q) (.success none)).messages
        = messages ++ [⟨"user", q⟩, ⟨"assistant", emptyResponseMarker⟩]
      ∧ (processTurn data_text messages (some q)
            (.success (some ""))).messages
          = messages ++ [⟨"user", q⟩, ⟨"assistant", emptyResponseMarker⟩]
      ∧ ∀ e, emptyResponseMarker ≠ requestFailedText e :=
  ⟨by simp [processTurn, hq, answerOf],
    by simp [processTurn, hq, answerOf],
    marker_ne_requestFailedText⟩

/-- Witness for C6 at a concrete empty-output turn. -/
theorem C6_empty_response_distinct_witness :
    (processTurn "D" [] (some "Hi") (.success none)).messages
      = [⟨"user", "Hi"⟩, ⟨"assistant", emptyResponseMarker⟩] := by
  have h := (C6_empty_response_distinct "D" [] "Hi" (by decide)).1
  simpa using h

/-- C7 as stated is false for whitespace-only input: the string of one
space is whitespace-only, yet it is truthy in Python, so the guard
`if user_prompt:` admits it, one request is sent and two transcript
entries are appended. -/
theorem C7_counterexample :
    (" ").data.all Char.isWhitespace = true
      ∧ (processTurn "D" [] (some " ") (.success (some "42"))).requests ≠ []
      ∧ (processTurn "D" [] (some " ") (.success (some "42"))).messages ≠ [] :=
  ⟨by decide, by decide, by decide⟩

/-- C7 (amended): for an empty submission, or no submission at all, the
turn sends no request and leaves the transcript unchanged, whatever the
completion outcome would have been. -/
theorem C7_empty_input_no_request (data_text : String)
    (messages : List Message) (input : Option String)
    (outcome : CompletionResult) (h : isTruthyInput input = false) :
    processTurn data_text messages input outcome
      = { messages := messages, requests := [] } := by
  cases input with
  | none => simp [processTurn]
  | some s =>
      simp [isTruthyInput] at h
      simp [processTurn, h]

/-- Witness for the amended C7 at the empty-string submission. -/
theorem C7_empty_input_no_request_witness :
    processTurn "D" [] (some "") (.success (some "42"))
      = { messages := [], requests := [] } :=
  C7_empty_input_no_request "D" [] (some "") (.success (some "42"))
    (by decide)

/-- C8: a turn on a non-empty question appends exactly two entries, first
the verbatim user message, then the assistant answer, after the untouched
existing transcript. -/
theorem C8_transcript_appends_pair (data_text : String)
    (messages : List Message) (q : String) (outcome : CompletionResult)
    (hq : ¬ q.isEmpty) :
    (processTurn data_text messages (some q) outcome).messages
      = messages ++ [⟨"user", q⟩, ⟨"assistant", answerOf outcome⟩] := by
  simp [processTurn, hq]

/-- Witness for C8 on a transcript that already holds one entry. -/
theorem C8_transcript_appends_pair_witness :
    (processTurn "D" [⟨"user", "old"⟩] (some "Hi") (.success none)).messages
      = [⟨"user", "old"⟩, ⟨"user", "Hi"⟩,
          ⟨"assistant", emptyResponseMarker⟩] := by
  have h := C8_transcript_appends_pair "D" [⟨"user", "old"⟩] "Hi"
    (.success none) (by decide)
  simpa [answerOf] using h

/-- C9: a console line equal to `quit` in any letter case exits the CLI
loop with status 0 and zero completion requests. -/
theorem C9_quit_sentinel (input : String) (h : pyLower input = "quit") :
    cliStep input = .exited 0 0 := by
  simp [cliStep, h]

/-- Witness for C9 at a mixed-case quit. -/
theorem C9_quit_sentinel_witness : cliStep "QuIt" = .exited 0 0 :=
  C9_quit_sentinel "QuIt" (by decide)

/-- C10: the per-sheet header line embeds the cap parameter itself, even
when the number of data rows the sheet actually serializes differs from
the cap. -/
theorem C10_header_announces_cap (N : Int) (sheet_name : String)
    (df : DataFrame) (_h : dataRowCount N df ≠ N.toNat) :
    sheetSection N sheet_name df
      = ("\n--- SHEET: " ++ sheet_name ++ " (first " ++ toString N
          ++ " rows) ---\n") ++ (df.head N).to_csv := rfl

/-- Witness for C10: a two-row sheet under cap 300 still gets a header
announcing 300 rows. -/
theorem C10_header_announces_cap_witness :
    sheetSection 300 "S" dfTwo
      = ("\n--- SHEET: " ++ "S" ++ " (first " ++ toString (300 : Int)
          ++ " rows) ---\n") ++ (dfTwo.head 300).to_csv :=
  C10_header_announces_cap 300 "S" dfTwo (by decide)

end Agent
